import Mathlib

/-!
Verification of the `openweathermap-qa-automation` repository.

The development shallowly embeds the parts of the repository that the
properties below are about:

* `src/pages/weather_page.py` — the multi-candidate selector resolution
  loops of the `WeatherPage` page object (`search_for_city`,
  `get_temperature`, `get_city_name`, `get_weather_description`,
  `is_weather_info_displayed`, `is_error_displayed`, `get_error_message`);
* `src/api/weather_api.py` — the `WeatherAPIClient` envelope construction
  and the two response-shape validators;
* `src/config/settings.py` — the `Settings` record and the `get_settings`
  singleton;
* `src/pages/base_page.py` — `BasePage.get_text`;
* `tests/api/test_weather_api_working.py` — the API-key skip guard shared
  by every test that needs the key.

The browser is external to the program, so a page is modelled as an
environment: a function from a selector string and the timeout passed to
`is_visible` to the outcome of attempting that one candidate.
-/

set_option autoImplicit false
set_option linter.unusedVariables false

namespace OWMQA

/-- Outcome of attempting a single selector candidate on the live page,
as observed by the `try:` block of a `WeatherPage` resolution loop:
`page.locator(selector).first` may raise (`raiseLoc`),
`is_visible(timeout=...)` may raise, e.g. on a malformed selector
(`raiseVis`), or return `False` (`notVis`), or return `True`, in which
case `text_content()` yields the element's text, `none` standing for a
null text content (`vis`). -/
inductive AttemptOutcome where
  | raiseLoc
  | raiseVis
  | notVis
  | vis (text : Option String)
  deriving DecidableEq, Repr

/-- A page environment: what attempting one candidate with one
`is_visible` timeout does. -/
def PageEnv : Type := String → Nat → AttemptOutcome

/-- Whether attempting candidate `s` under timeout `t` finds a visible
element (i.e. `is_visible` returns `True` without raising). -/
def attemptVisible (env : PageEnv) (t : Nat) (s : String) : Bool :=
  match env s t with
  | .vis _ => true
  | _ => false

/-- The shared resolution loop of `get_temperature`, `get_city_name`,
`get_weather_description`, `is_weather_info_displayed`,
`is_error_displayed` and `get_error_message`:

    for selector in selectors:
        try:
            element = self.page.locator(selector).first
            if await element.is_visible(timeout=t):
                return <element / its text / True>
        except:
            continue
    return <absent>

The first component is `some txt` when some candidate resolved to a
visible element (with `txt` its text content), `none` when the loop was
exhausted.  The second component records, in order, the candidates the
loop actually evaluated. -/
def resolveWithTrace (env : PageEnv) (t : Nat) : List String → Option (Option String) × List String
  | [] => (none, [])
  | s :: rest =>
    match env s t with
    | .vis txt => (some txt, [s])
    | _ =>
      let r := resolveWithTrace env t rest
      (r.1, s :: r.2)

/-- Locator constant `WeatherPage.SEARCH_INPUT`. -/
def SEARCH_INPUT : String := "[data-testid='search-input'], input[placeholder*='city'], #search_str"

/-- Locator constant `WeatherPage.SEARCH_BUTTON` (defined in the source
but used by no resolution loop). -/
def SEARCH_BUTTON : String := "[data-testid='search-button'], button[type='submit'], .search-btn"

/-- Locator constant `WeatherPage.WEATHER_INFO`. -/
def WEATHER_INFO : String := "[data-testid='weather-info'], .weather-widget, .current-weather"

/-- Locator constant `WeatherPage.TEMPERATURE`. -/
def TEMPERATURE : String := "[data-testid='temperature'], .temperature, .heading"

/-- Locator constant `WeatherPage.CITY_NAME`. -/
def CITY_NAME : String := "[data-testid='city-name'], .city-name, h2"

/-- Locator constant `WeatherPage.WEATHER_DESCRIPTION`. -/
def WEATHER_DESCRIPTION : String := "[data-testid='description'], .weather-description"

/-- Locator constant `WeatherPage.ERROR_MESSAGE`. -/
def ERROR_MESSAGE : String := "[data-testid='error'], .error, .alert"

/-- Candidate list of `search_for_city`. -/
def search_selectors : List String :=
  [SEARCH_INPUT, "input[name='q']", "input[id*='search']", "input[placeholder*='Search']"]

/-- Candidate list of `get_temperature`. -/
def temperature_selectors : List String :=
  [TEMPERATURE, ".temperature", ".temp", "[class*='temperature']"]

/-- Candidate list of `get_city_name`. -/
def city_selectors : List String :=
  [CITY_NAME, "h1", "h2", ".city", "[class*='city']"]

/-- Candidate list of `get_weather_description`. -/
def description_selectors : List String :=
  [WEATHER_DESCRIPTION, ".description", ".weather-desc", "[class*='description']"]

/-- Candidate list of `is_weather_info_displayed`. -/
def weather_selectors : List String :=
  [WEATHER_INFO, ".weather", ".current-weather", "[class*='weather']"]

/-- Candidate list of `is_error_displayed` and of `get_error_message`. -/
def error_selectors : List String :=
  [ERROR_MESSAGE, ".error", ".alert-danger", "[class*='error']"]

/-- The `is_visible` timeout literal in the loop of `search_for_city`. -/
def search_for_city_timeout : Nat := 5000

/-- The `is_visible` timeout literal in the loop of `get_temperature`. -/
def get_temperature_timeout : Nat := 5000

/-- The `is_visible` timeout literal in the loop of `get_city_name`. -/
def get_city_name_timeout : Nat := 5000

/-- The `is_visible` timeout literal in the loop of `get_weather_description`. -/
def get_weather_description_timeout : Nat := 5000

/-- The `is_visible` timeout literal in the loop of `is_weather_info_displayed`. -/
def is_weather_info_displayed_timeout : Nat := 10000

/-- The `is_visible` timeout literal in the loop of `is_error_displayed`. -/
def is_error_displayed_timeout : Nat := 5000

/-- The `is_visible` timeout literal in the inner loop of `get_error_message`. -/
def get_error_message_timeout : Nat := 5000

/-- `WeatherPage.get_temperature`: first visible candidate's text, `none`
when the loop is exhausted (a found element whose text content is null
also yields `none`, exactly as the Python `Optional[str]` return does). -/
def get_temperature (env : PageEnv) : Option String :=
  ((resolveWithTrace env get_temperature_timeout temperature_selectors).1).join

/-- `WeatherPage.get_city_name`. -/
def get_city_name (env : PageEnv) : Option String :=
  ((resolveWithTrace env get_city_name_timeout city_selectors).1).join

/-- `WeatherPage.get_weather_description`. -/
def get_weather_description (env : PageEnv) : Option String :=
  ((resolveWithTrace env get_weather_description_timeout description_selectors).1).join

/-- `WeatherPage.is_weather_info_displayed`. -/
def is_weather_info_displayed (env : PageEnv) : Bool :=
  ((resolveWithTrace env is_weather_info_displayed_timeout weather_selectors).1).isSome

/-- `WeatherPage.is_error_displayed`. -/
def is_error_displayed (env : PageEnv) : Bool :=
  ((resolveWithTrace env is_error_displayed_timeout error_selectors).1).isSome

/-- `WeatherPage.get_error_message`: guarded by `is_error_displayed`,
then the same loop again. -/
def get_error_message (env : PageEnv) : Option String :=
  if is_error_displayed env then
    ((resolveWithTrace env get_error_message_timeout error_selectors).1).join
  else
    none

/-- The search-input loop of `search_for_city`.  Crucially, the Python
assigns `search_input = self.page.locator(selector).first` *before* the
visibility check, inside the `try:`; so after an unsuccessful iteration
the variable still holds the (truthy) locator object.  The accumulator
is `some s` when `search_input` currently holds the locator built from
selector `s`, `none` when it is still `None`. -/
def searchInputLoop (env : PageEnv) : List String → Option String → Option String
  | [], acc => acc
  | s :: rest, acc =>
    match env s search_for_city_timeout with
    | .raiseLoc => searchInputLoop env rest acc
    | .raiseVis => searchInputLoop env rest (some s)
    | .notVis => searchInputLoop env rest (some s)
    | .vis _ => some s

/-- The observable action `search_for_city` takes after its loop. -/
inductive SearchAction where
  | fillAndSubmit (selector city : String)
  | navigateDirect (url : String)
  deriving DecidableEq, Repr

/-- `WeatherPage.search_for_city`: run the loop; `if search_input:` is
Python truthiness of the locator object, i.e. tests only whether the
variable was ever assigned, so the URL fallback is taken only when the
accumulator is still `None`. -/
def search_for_city (env : PageEnv) (ui_base_url city_name : String) : SearchAction :=
  match searchInputLoop env search_selectors none with
  | some s => .fillAndSubmit s city_name
  | none => .navigateDirect (ui_base_url ++ "/find?q=" ++ city_name)

/-- JSON values, as produced by parsing an HTTP response body.  A Python
`dict` is an `obj`; its key membership test `field in d` is membership
of the key among the field names. -/
inductive Json where
  | null
  | bool (b : Bool)
  | num (n : Int)
  | str (s : String)
  | arr (elems : List Json)
  | obj (fields : List (String × Json))

/-- A Playwright `APIResponse` as the wrapper observes it: the HTTP
status, the header mapping, the raw body text, and the body parsed as
JSON (`none` when the body is not valid JSON, in which case
`response.json()` raises). -/
structure APIResponse where
  status : Nat
  headers : List (String × String)
  body : String
  jsonBody : Option Json

/-- Playwright's `response.ok`: status in the range 200–299 (the
library's documented contract, referenced by the wrapper's
`if response.ok` branch). -/
def APIResponse.ok (r : APIResponse) : Bool :=
  200 ≤ r.status && r.status ≤ 299

/-- One value of the returned envelope dictionary. -/
inductive EnvField where
  | statusV (n : Nat)
  | headersV (h : List (String × String))
  | jsonV (j : Json)
  | textV (s : String)

/-- The envelope every `WeatherAPIClient` operation builds from its
response:

    return {
        "status": response.status,
        "headers": dict(response.headers),
        "data": await response.json() if response.ok else await response.text()
    }

The result is `none` when `response.ok` holds but the body is not JSON
(then `response.json()` raises and no envelope is produced). -/
def envelopeOf (r : APIResponse) : Option (List (String × EnvField)) :=
  (if r.ok then r.jsonBody.map EnvField.jsonV else some (EnvField.textV r.body)).map
    (fun d => [("status", EnvField.statusV r.status),
               ("headers", EnvField.headersV r.headers),
               ("data", d)])

/-- `WeatherAPIClient.get_current_weather`, modelled on the response `r`
the GET to `{base_url}/weather?q=city` produced. -/
def get_current_weather (city : String) (r : APIResponse) : Option (List (String × EnvField)) :=
  envelopeOf r

/-- `WeatherAPIClient.get_weather_by_coordinates`. -/
def get_weather_by_coordinates (lat lon : Int) (r : APIResponse) : Option (List (String × EnvField)) :=
  envelopeOf r

/-- `WeatherAPIClient.get_weather_by_city_id`. -/
def get_weather_by_city_id (city_id : Nat) (r : APIResponse) : Option (List (String × EnvField)) :=
  envelopeOf r

/-- `WeatherAPIClient.get_5_day_forecast`, a GET to `{base_url}/forecast`. -/
def get_5_day_forecast (city : String) (r : APIResponse) : Option (List (String × EnvField)) :=
  envelopeOf r

/-- `WeatherAPIClient.search_cities`, a GET to the geocoding endpoint. -/
def search_cities (query : String) (limit : Nat) (r : APIResponse) : Option (List (String × EnvField)) :=
  envelopeOf r

/-- `required_fields` of `validate_weather_response`. -/
def weather_required_fields : List String :=
  ["coord", "weather", "main", "wind", "clouds", "dt", "sys", "id", "name"]

/-- `required_fields` of `validate_forecast_response`. -/
def forecast_required_fields : List String :=
  ["cod", "message", "cnt", "list", "city"]

/-- `WeatherAPIClient.validate_weather_response`: `False` unless the
input is a mapping; otherwise `all(field in response_data for field in
required_fields)`. -/
def validate_weather_response (response_data : Json) : Bool :=
  match response_data with
  | .obj fields => weather_required_fields.all (fun f => (fields.map Prod.fst).contains f)
  | _ => false

/-- `WeatherAPIClient.validate_forecast_response`. -/
def validate_forecast_response (response_data : Json) : Bool :=
  match response_data with
  | .obj fields => forecast_required_fields.all (fun f => (fields.map Prod.fst).contains f)
  | _ => false

/-- The `Settings` record of `src/config/settings.py`, with each field's
declared default.  `openweather_api_key` is declared `Field(...)`: it is
required and has no default. -/
structure Settings where
  environment : String := "test"
  debug : Bool := false
  openweather_api_key : String
  openweather_base_url : String := "https://api.openweathermap.org/data/2.5"
  browser_name : String := "chromium"
  headless : Bool := true
  browser_timeout : Nat := 30000
  test_timeout : Nat := 30
  retry_count : Nat := 2
  ui_base_url : String := "https://openweathermap.org"
  screenshot_mode : String := "only-on-failure"
  video_mode : String := "retain-on-failure"
  allure_results_dir : String := "reports/allure-results"
  html_report_dir : String := "reports/html"
  performance_threshold_ms : Nat := 2000
  deriving DecidableEq, Repr

/-- Pydantic construction of `Settings()` from the environment, keeping
only the one variable relevant here: `none` means `OPENWEATHER_API_KEY`
is absent (no env var and no `.env` entry), `some k` means it is set to
the string `k`.  A required field with no default makes construction
raise a `ValidationError` when the variable is absent; any string value,
the empty one included, is accepted. -/
def settingsFromEnv (apiKey : Option String) : Except String Settings :=
  match apiKey with
  | none => .error "validation error: openweather_api_key field required"
  | some k => .ok { openweather_api_key := k }

/-- Outcome of running one of the API tests that need the key. -/
inductive TestOutcome where
  | errored
  | skipped
  | ran
  deriving DecidableEq, Repr

/-- The guard shared by every test in
`tests/api/test_weather_api_working.py` that needs the key:

    settings = get_settings()
    if not settings.openweather_api_key:
        pytest.skip("OpenWeatherMap API key not provided")

`get_settings()` constructs `Settings()` on first use, so a missing
variable raises there, before the guard; Python `not s` on a string is
true exactly for the empty string. -/
def keyGuardedTestOutcome (apiKey : Option String) : TestOutcome :=
  match settingsFromEnv apiKey with
  | .error _ => .errored
  | .ok s => if s.openweather_api_key = "" then .skipped else .ran

/-- The mutable module state of `src/config/settings.py`: the global
`_settings` cache, plus an instrumentation counter of how many times
`Settings()` has been evaluated. -/
structure SettingsState where
  cached : Option Settings
  constructions : Nat
  deriving DecidableEq, Repr

/-- The module state at import time: `_settings: Optional[Settings] = None`. -/
def initSettingsState : SettingsState :=
  { cached := none, constructions := 0 }

/-- `get_settings`: construct on first call, cache, and return the cache
thereafter.  `mk` is the `Settings()` constructor (its successful run;
the singleton claims are about caching, not about construction failure). -/
def get_settings (mk : Unit → Settings) (st : SettingsState) : Settings × SettingsState :=
  match st.cached with
  | some s => (s, st)
  | none =>
    let s := mk ()
    (s, { cached := some s, constructions := st.constructions + 1 })

/-- State after `n` successive calls of `get_settings` in one process. -/
def callsN (mk : Unit → Settings) : Nat → SettingsState → SettingsState
  | 0, st => st
  | n + 1, st => callsN mk n (get_settings mk st).2

/-- `BasePage.get_text`: `return await element.text_content() or ""`.
The input is the element's text content (`None` possible); Python
`x or ""` yields `""` when `x` is falsy (`None` or the empty string),
else `x`. -/
def get_text (text_content : Option String) : String :=
  match text_content with
  | none => ""
  | some s => if s = "" then "" else s

/-- A page on which exactly the candidate `".temp"` is visible (with text
`"20"`); every other candidate's `is_visible` returns `False`. -/
def envTempFound : PageEnv :=
  fun s _ => if s = ".temp" then .vis (some "20") else .notVis

/-- A page on which attempting any candidate raises at `is_visible`
(e.g. every selector is malformed). -/
def envAllRaise : PageEnv :=
  fun _ _ => .raiseVis

/-- A page on which every candidate's locator is built but no candidate
is visible (`is_visible` returns `False` everywhere). -/
def envNothingVisible : PageEnv :=
  fun _ _ => .notVis

/-- C1: selector resolution short-circuits.  For every candidate list
that decomposes as `pre ++ s :: post` with no candidate of `pre` visible
and `s` resolving to a visible element (of text `txt`), the resolution
loop shared by `get_temperature`, `get_city_name`,
`get_weather_description`, `is_weather_info_displayed` and
`is_error_displayed` returns that first match — `txt` for the getters,
`True` for the is-displayed checks — and its evaluation trace is exactly
`pre ++ [s]`: no candidate after the match is evaluated. -/
theorem resolution_short_circuit (env : PageEnv) (t : Nat)
    (pre post : List String) (s : String) (txt : Option String)
    (hpre : ∀ x ∈ pre, attemptVisible env t x = false)
    (hs : env s t = .vis txt) :
    resolveWithTrace env t (pre ++ s :: post) = (some txt, pre ++ [s])
    ∧ ((resolveWithTrace env t (pre ++ s :: post)).1).join = txt
    ∧ ((resolveWithTrace env t (pre ++ s :: post)).1).isSome = true := by
  have main : resolveWithTrace env t (pre ++ s :: post) = (some txt, pre ++ [s]) := by
    induction pre with
    | nil =>
      simp [resolveWithTrace, hs]
    | cons a rest ih =>
      have ha : attemptVisible env t a = false := hpre a (by simp)
      have hrest : ∀ x ∈ rest, attemptVisible env t x = false :=
        fun x hx => hpre x (by simp [hx])
      have hih := ih hrest
      cases hcase : env a t with
      | vis txt2 => rw [attemptVisible, hcase] at ha; cases ha
      | raiseLoc => simp [resolveWithTrace, hcase, hih]
      | raiseVis => simp [resolveWithTrace, hcase, hih]
      | notVis => simp [resolveWithTrace, hcase, hih]
  exact ⟨main, by rw [main]; rfl, by rw [main]; rfl⟩

/-- Witness for C1 on a concrete page: in `get_temperature`'s candidate
list the first two candidates are invisible and `".temp"` matches, so
resolution returns its text and stops after the third candidate. -/
theorem resolution_short_circuit_witness :
    resolveWithTrace envTempFound 5000 temperature_selectors =
      (some (some "20"), [TEMPERATURE, ".temperature", ".temp"]) :=
  (resolution_short_circuit envTempFound 5000 [TEMPERATURE, ".temperature"]
    ["[class*='temperature']"] ".temp" (some "20") (by decide) (by decide)).1

/-- C2: selector resolution never raises and returns the absent value
when nothing matches.  If on the page no candidate's attempt finds a
visible element (the attempt may raise — a malformed selector included —
or report the element invisible), then for every candidate list,
including the empty one, the loop evaluates every candidate (exception
suppressed, loop continues) and returns `none`; accordingly the getters
return `None` and the is-displayed checks return `False`. -/
theorem resolution_absent_total (env : PageEnv)
    (h : ∀ s t, attemptVisible env t s = false) :
    (∀ t l, resolveWithTrace env t l = (none, l))
    ∧ get_temperature env = none
    ∧ get_city_name env = none
    ∧ get_weather_description env = none
    ∧ get_error_message env = none
    ∧ is_weather_info_displayed env = false
    ∧ is_error_displayed env = false := by
  have key : ∀ t l, resolveWithTrace env t l = (none, l) := by
    intro t l
    induction l with
    | nil => rfl
    | cons a rest ih =>
      have ha := h a t
      cases hcase : env a t with
      | vis txt => rw [attemptVisible, hcase] at ha; cases ha
      | raiseLoc => simp [resolveWithTrace, hcase, ih]
      | raiseVis => simp [resolveWithTrace, hcase, ih]
      | notVis => simp [resolveWithTrace, hcase, ih]
  refine ⟨key, ?_, ?_, ?_, ?_, ?_, ?_⟩ <;>
    simp [get_temperature, get_city_name, get_weather_description, get_error_message,
      is_weather_info_displayed, is_error_displayed, key]

/-- Witness for C2 on a concrete page where every attempt raises a
malformed-selector error: the error-banner loop still tries all four
candidates and reports absence. -/
theorem resolution_absent_total_witness :
    resolveWithTrace envAllRaise 5000 error_selectors = (none, error_selectors) :=
  (resolution_absent_total envAllRaise (fun s t => rfl)).1 5000 error_selectors

/-- C3 (code bug): on a page where no search-input candidate is visible
(every locator is built, every `is_visible` returns `False`),
`search_for_city` does NOT take the direct-URL fallback: because
`search_input` was assigned the locator object before the visibility
check, it is truthy after the exhausted loop, and the method fills the
last attempted — invisible — candidate and presses Enter on it. -/
theorem search_for_city_fallback_unreachable :
    search_for_city envNothingVisible "https://openweathermap.org" "London" =
      SearchAction.fillAndSubmit "input[placeholder*='Search']" "London"
    ∧ search_for_city envNothingVisible "https://openweathermap.org" "London" ≠
      SearchAction.navigateDirect "https://openweathermap.org/find?q=London" := by
  constructor
  · rfl
  · intro h
    cases h

/-- C6 counterexample: the per-candidate visibility timeout of the
weather-info container loop (`is_weather_info_displayed`) is 10000 ms,
not the claimed uniform 5000 ms. -/
theorem weather_info_timeout_counterexample :
    is_weather_info_displayed_timeout = 10000 ∧
      ¬ is_weather_info_displayed_timeout = 5000 := by
  decide

/-- C6 amended: every per-candidate visibility check in the WeatherPage
resolution loops passes a 5000 ms timeout, except the weather-info
container check in `is_weather_info_displayed`, which passes 10000 ms. -/
theorem weather_page_loop_timeouts :
    search_for_city_timeout = 5000
    ∧ get_temperature_timeout = 5000
    ∧ get_city_name_timeout = 5000
    ∧ get_weather_description_timeout = 5000
    ∧ is_weather_info_displayed_timeout = 10000
    ∧ is_error_displayed_timeout = 5000
    ∧ get_error_message_timeout = 5000 := by
  decide

/-- A successful JSON response, used to witness the envelope shape. -/
def okJsonResponse : APIResponse :=
  { status := 200
    headers := [("content-type", "application/json")]
    body := ""
    jsonBody := some (Json.obj [("name", Json.str "London")]) }

/-- C4: every API wrapper operation returns the common envelope with
exactly the keys `status`, `headers`, `data` (in that order), where
`data` is the parsed JSON body when `response.ok` holds and the raw
response text otherwise. -/
theorem api_envelope_shape (city q : String) (lat lon : Int) (city_id lim : Nat)
    (r : APIResponse) :
    get_current_weather city r = envelopeOf r
    ∧ get_weather_by_coordinates lat lon r = envelopeOf r
    ∧ get_weather_by_city_id city_id r = envelopeOf r
    ∧ get_5_day_forecast city r = envelopeOf r
    ∧ search_cities q lim r = envelopeOf r
    ∧ (r.ok = true → envelopeOf r = r.jsonBody.map (fun j =>
        [("status", EnvField.statusV r.status),
         ("headers", EnvField.headersV r.headers),
         ("data", EnvField.jsonV j)]))
    ∧ (r.ok = false → envelopeOf r =
        some [("status", EnvField.statusV r.status),
              ("headers", EnvField.headersV r.headers),
              ("data", EnvField.textV r.body)])
    ∧ (∀ e, envelopeOf r = some e → e.map Prod.fst = ["status", "headers", "data"]) := by
  have hOk : r.ok = true → envelopeOf r = r.jsonBody.map (fun j =>
      [("status", EnvField.statusV r.status),
       ("headers", EnvField.headersV r.headers),
       ("data", EnvField.jsonV j)]) := by
    intro hok
    cases hb : r.jsonBody <;> simp [envelopeOf, hok, hb]
  have hNotOk : r.ok = false → envelopeOf r =
      some [("status", EnvField.statusV r.status),
            ("headers", EnvField.headersV r.headers),
            ("data", EnvField.textV r.body)] := by
    intro hok
    simp [envelopeOf, hok]
  have hKeys : ∀ e, envelopeOf r = some e →
      e.map Prod.fst = ["status", "headers", "data"] := by
    intro e he
    cases hok : r.ok with
    | true =>
      rw [hOk hok] at he
      cases hb : r.jsonBody with
      | none => rw [hb] at he; cases he
      | some j =>
        rw [hb] at he
        simp at he
        rw [← he]
        rfl
    | false =>
      rw [hNotOk hok] at he
      simp at he
      rw [← he]
      rfl
  exact ⟨rfl, rfl, rfl, rfl, rfl, hOk, hNotOk, hKeys⟩

/-- Witness for C4: the current-weather operation on a concrete 200
response yields the three-key envelope holding the parsed JSON body. -/
theorem api_envelope_shape_witness :
    get_current_weather "London" okJsonResponse =
      some [("status", EnvField.statusV 200),
            ("headers", EnvField.headersV [("content-type", "application/json")]),
            ("data", EnvField.jsonV (Json.obj [("name", Json.str "London")]))] := by
  have h := api_envelope_shape "London" "London" 51 0 2643743 5 okJsonResponse
  rw [h.1, h.2.2.2.2.2.1 (by decide)]
  rfl

/-- C5: the validators decide exactly required-key presence on a
mapping, values unconstrained: `validate_weather_response` accepts a
mapping iff it has all nine weather keys, `validate_forecast_response`
accepts a mapping iff it has all five forecast keys; in particular a
mapping missing the key `list` is rejected by the forecast validator. -/
theorem validators_required_keys (fields : List (String × Json)) :
    (validate_weather_response (.obj fields) = true ↔
      ∀ k ∈ weather_required_fields, k ∈ fields.map Prod.fst)
    ∧ (validate_forecast_response (.obj fields) = true ↔
      ∀ k ∈ forecast_required_fields, k ∈ fields.map Prod.fst)
    ∧ (("list" : String) ∉ fields.map Prod.fst →
      validate_forecast_response (.obj fields) = false) := by
  have hw : validate_weather_response (.obj fields) = true ↔
      ∀ k ∈ weather_required_fields, k ∈ fields.map Prod.fst := by
    simp [validate_weather_response]
  have hf : validate_forecast_response (.obj fields) = true ↔
      ∀ k ∈ forecast_required_fields, k ∈ fields.map Prod.fst := by
    simp [validate_forecast_response]
  refine ⟨hw, hf, ?_⟩
  intro hnot
  cases hval : validate_forecast_response (.obj fields) with
  | false => rfl
  | true =>
    exact absurd (hf.mp hval "list" (by simp [forecast_required_fields])) hnot

/-- Witness for C5: a mapping with only the key `cod` (so missing
`list`) is rejected by the forecast validator. -/
theorem validators_required_keys_witness :
    validate_forecast_response (Json.obj [("cod", Json.num 200)]) = false :=
  (validators_required_keys [("cod", Json.num 200)]).2.2 (by simp)

/-- C10: both validators are total over arbitrary JSON values and return
`False` on every non-mapping input (null, boolean, number, string,
array) — the `isinstance` guard precedes any key lookup, so they never
raise. -/
theorem validators_reject_non_mapping (d : Json)
    (h : ∀ fields, d ≠ Json.obj fields) :
    validate_weather_response d = false ∧ validate_forecast_response d = false := by
  cases d
  case obj fields => exact absurd rfl (h fields)
  all_goals exact ⟨rfl, rfl⟩

/-- Witness for C10: a raw string body (the non-JSON `data` of a failed
call) is rejected by both validators. -/
theorem validators_reject_non_mapping_witness :
    validate_weather_response (Json.str "city not found") = false
    ∧ validate_forecast_response (Json.str "city not found") = false :=
  validators_reject_non_mapping (Json.str "city not found")
    (fun fields h => Json.noConfusion h)

/-- C7 (code bug): with `OPENWEATHER_API_KEY` absent from the
environment, `Settings()` raises a validation error inside
`get_settings()` — before the test's `pytest.skip` guard is reached —
so the test errors rather than skips; only an empty-string key reaches
the skip branch, and a non-empty key runs the test. -/
theorem missing_api_key_errors_not_skips :
    keyGuardedTestOutcome none = TestOutcome.errored
    ∧ keyGuardedTestOutcome (some "") = TestOutcome.skipped
    ∧ keyGuardedTestOutcome (some "secret") = TestOutcome.ran := by
  decide

/-- Helper: a call of `get_settings` on a state whose cache is populated
returns the cached object and leaves the state unchanged. -/
theorem get_settings_of_cached (mk : Unit → Settings) (st : SettingsState) (s : Settings)
    (h : st.cached = some s) :
    get_settings mk st = (s, st) := by
  unfold get_settings
  rw [h]

/-- Helper: further calls leave a populated state fixed. -/
theorem callsN_of_cached (mk : Unit → Settings) (st : SettingsState) (s : Settings)
    (h : st.cached = some s) :
    ∀ n, callsN mk n st = st := by
  intro n
  induction n with
  | zero => rfl
  | succ m ih =>
    show callsN mk m (get_settings mk st).2 = st
    rw [get_settings_of_cached mk st s h]
    exact ih

/-- C8: `get_settings` is a lazy idempotent singleton.  Starting from
the module's initial state, the call after any `n` prior calls returns
the same object as the very first call, and after any positive number of
calls `Settings()` has been evaluated exactly once and is cached. -/
theorem get_settings_singleton (mk : Unit → Settings) (n : Nat) :
    (get_settings mk (callsN mk n initSettingsState)).1 =
      (get_settings mk initSettingsState).1
    ∧ (callsN mk (n + 1) initSettingsState).constructions = 1
    ∧ (callsN mk (n + 1) initSettingsState).cached =
      some (get_settings mk initSettingsState).1 := by
  have h1 : get_settings mk initSettingsState =
      (mk (), { cached := some (mk ()), constructions := 1 }) := rfl
  have hfix := callsN_of_cached mk
    { cached := some (mk ()), constructions := 1 } (mk ()) rfl
  have hstep : ∀ m, callsN mk (m + 1) initSettingsState =
      { cached := some (mk ()), constructions := 1 } := by
    intro m
    show callsN mk m (get_settings mk initSettingsState).2 = _
    rw [h1]
    exact hfix m
  refine ⟨?_, ?_, ?_⟩
  · cases n with
    | zero => rfl
    | succ m =>
      rw [hstep m, get_settings_of_cached mk _ (mk ()) rfl, h1]
  · rw [hstep n]
  · rw [hstep n, h1]

/-- C9: `BasePage.get_text` is total over strings: a null text content
becomes the empty string, and any actual string is returned as is (the
Python `or ""` maps the falsy empty string to itself). -/
theorem get_text_total :
    get_text none = "" ∧ ∀ s : String, get_text (some s) = s := by
  refine ⟨rfl, fun s => ?_⟩
  by_cases h : s = ""
  · simp [get_text, h]
  · simp [get_text, h]

end OWMQA
